import Mathlib

/-!
# Verification of the `infra-cli` tunnel supervisor and orchestration scripts

A shallow embedding, in Lean 4, of the parts of the repository that the
specification's testable properties talk about:

* `src/infra/utils/ngrok_util.py` — platform resolution (`get_download_url`),
  download/installation (`download_ngrok`), executable location
  (`resolve_ngrok_exec`), process supervision (`start_ngrok`), the
  readiness probe (`is_ngrok_running`) and the endpoint reader
  (`get_ngrok_endpoint`);
* `src/infra/scripts/create_env.py` (and its duplicate under
  `src/src/infra/scripts/`) — the interactive multi-selection prompt
  (`choose_multiple_from_list`), the environment-variable validation prefix of
  `run()` and its confirmation loop.

Effectful Python code is embedded by making its interactions with the outside
world explicit parameters (HTTP responses, process behaviour over time, console
input lines, the contents of the install directory) and, where the order of
side effects matters, by recording the emitted side effects as an explicit
event list.  Machine integers do not occur; all numbers are small `Nat`s.
Python string helpers (`strip`, `split`, `lower`, `isdigit`, `replace`,
`rsplit`) are re-implemented over `List Char` so that every definition reduces
inside the kernel (their ASCII behaviour, which is all the repository needs).
-/

deriving instance DecidableEq for Except

namespace InfraCli

/-! ## Python string primitives (ASCII behaviour) -/

/-- Python truthiness of an optional string: `None` and `""` are falsy. -/
def pyTruthy : Option String → Bool
  | none => false
  | some s => decide (s ≠ "")

/-- `p` is a prefix of `s`, on characters (used by `pyReplace`). -/
def lcharsStart : List Char → List Char → Bool
  | [], _ => true
  | _ :: _, [] => false
  | a :: ps, b :: ss => a = b && lcharsStart ps ss

/-- Fuelled worker for `pyReplace`; the fuel is the length of the subject, so
it never runs out on a non-empty pattern. -/
def pyReplaceAux (pat repl : List Char) : Nat → List Char → List Char
  | _, [] => []
  | 0, s => s
  | n + 1, s@(c :: rest) =>
    if lcharsStart pat s then repl ++ pyReplaceAux pat repl n (s.drop pat.length)
    else c :: pyReplaceAux pat repl n rest

/-- Python `s.replace(pat, repl)` for a non-empty `pat`: every non-overlapping
occurrence, scanning left to right. -/
def pyReplace (s pat repl : String) : String :=
  ⟨pyReplaceAux pat.data repl.data s.data.length s.data⟩

/-- Python `s.strip()`: drop ASCII whitespace from both ends. -/
def pyStrip (s : String) : String :=
  ⟨((s.data.dropWhile Char.isWhitespace).reverse.dropWhile Char.isWhitespace).reverse⟩

/-- Worker for `pySplitComma`. -/
def splitCommaAux : List Char → List Char → List (List Char)
  | [], acc => [acc.reverse]
  | c :: rest, acc =>
    if c = ',' then acc.reverse :: splitCommaAux rest []
    else splitCommaAux rest (c :: acc)

/-- Python `s.split(",")`. -/
def pySplitComma (s : String) : List String :=
  (splitCommaAux s.data []).map fun l => ⟨l⟩

/-- Python `s.isdigit()` on ASCII input: non-empty and all digits. -/
def pyIsDigit (s : String) : Bool :=
  !s.data.isEmpty && s.data.all Char.isDigit

/-- Python `int(s)` on a string of ASCII digits. -/
def pyToNat (s : String) : Nat :=
  s.data.foldl (fun n c => 10 * n + (c.toNat - 48)) 0

/-- Python `s.lower()` on ASCII input. -/
def pyLower (s : String) : String :=
  ⟨s.data.map Char.toLower⟩

/-- Python `s.rsplit("/", 1)[0]`: everything before the last `/`, or `s`
itself when `s` has no `/`. -/
def pyRsplitSlashHead (s : String) : String :=
  match s.data.reverse.dropWhile (fun c => c ≠ '/') with
  | [] => s
  | _ :: pre => ⟨pre.reverse⟩

/-- `needle` occurs as a contiguous substring of `hay`. -/
def containsStr (needle hay : String) : Prop :=
  ∃ s t, hay.data = s ++ needle.data ++ t

/-! ## `ngrok_util.py` — the tunnel status API

`requests.get(NGROK_API_URL)` either raises (connection refused, etc.) or
yields a response with an HTTP status code and — for the endpoint reader — a
JSON body whose `"tunnels"` list we keep as the list of the tunnels'
`public_url` strings.  `Response.raise_for_status()` raises `HTTPError`
exactly when `400 <= status < 600`. -/

inductive ApiResult where
  /-- `requests.get` itself raised (the API is unreachable). -/
  | raisedConn (msg : String)
  /-- A response arrived: its status code and the `public_url` of each entry
  of its `"tunnels"` list. -/
  | resp (status : Nat) (tunnels : List String)
deriving DecidableEq

/-- `ngrok_util.is_ngrok_running` (lines 30–37): `requests.get` +
`raise_for_status` inside `try/except Exception: return False`. -/
def is_ngrok_running : ApiResult → Bool
  | .raisedConn _ => false
  | .resp status _ => !(400 ≤ status && status < 600)

/-- Spec-side notion: a response whose status is in the HTTP "successful"
class (2xx).  Used to compare the code against the claim's wording. -/
def isSuccessStatus (status : Nat) : Prop :=
  200 ≤ status ∧ status < 300

instance : DecidablePred isSuccessStatus := fun st => by
  unfold isSuccessStatus; infer_instance

/-- Spec-side notion: the request completed (no exception) and
`raise_for_status` did not raise, i.e. the status is outside 400–599. -/
def completesWithoutHttpError : ApiResult → Prop
  | .raisedConn _ => False
  | .resp status _ => ¬(400 ≤ status ∧ status < 600)

instance : DecidablePred completesWithoutHttpError := fun r =>
  match r with
  | .raisedConn _ => inferInstanceAs (Decidable False)
  | .resp _ _ => inferInstanceAs (Decidable (¬ _))

/-! ## `ngrok_util.py` — platform resolution -/

/-- `ngrok_util.get_download_url` (lines 39–74).  `system` is
`platform.system()`; `machine` is `platform.machine()`, which the source
lowercases on entry.  The source raises bare `Exception`s carrying the
f-string messages reproduced here; the spec calls that failure
`UnsupportedPlatformError`. -/
def get_download_url (system machine : String) : Except String String :=
  let arch := pyLower machine
  if system = "Windows" then
    if arch = "amd64" ∨ arch = "x86_64" then
      .ok "https://bin.equinox.io/c/bNyj1mQVY4c/ngrok-v3-stable-windows-amd64.zip"
    else if arch = "arm64" ∨ arch = "aarch64" then
      .ok "https://bin.equinox.io/c/bNyj1mQVY4c/ngrok-v3-stable-windows-arm64.zip"
    else if arch = "x86" ∨ arch = "i386" ∨ arch = "i686" then
      .ok "https://bin.equinox.io/c/bNyj1mQVY4c/ngrok-v3-stable-windows-386.zip"
    else
      .error ("Unsupported Windows architecture: " ++ arch)
  else if system = "Darwin" then
    if arch = "arm64" then
      .ok "https://bin.equinox.io/c/bNyj1mQVY4c/ngrok-v3-stable-darwin-arm64.zip"
    else if arch = "x86_64" ∨ arch = "amd64" then
      .ok "https://bin.equinox.io/c/bNyj1mQVY4c/ngrok-v3-stable-darwin-amd64.zip"
    else
      .error ("Unsupported macOS architecture: " ++ arch)
  else if system = "Linux" then
    if arch = "amd64" ∨ arch = "x86_64" then
      .ok "https://bin.equinox.io/c/bNyj1mQVY4c/ngrok-v3-stable-linux-amd64.tgz"
    else if arch = "x86" ∨ arch = "i386" ∨ arch = "i686" then
      .ok "https://bin.equinox.io/c/bNyj1mQVY4c/ngrok-v3-stable-linux-386.tgz"
    else if arch = "aarch64" then
      .ok "https://bin.ngrok.com/ngrok-v3-stable-linux-arm64.zip"
    else
      .error ("Unsupported Linux architecture: " ++ arch)
  else
    .error ("Unsupported operating system: " ++ system ++ " (" ++ arch ++ ")")

/-- The (os, machine) pairs the resolver's table actually matches, read off
the branches of `get_download_url`: the amended supported set.  Note Darwin
has no x86/i386/i686 row, and Linux matches only the `aarch64` spelling of
64-bit ARM, not `arm64`. -/
def supportedPlatformPair (system machine : String) : Prop :=
  let arch := pyLower machine
  (system = "Windows" ∧
    arch ∈ (["amd64", "x86_64", "arm64", "aarch64", "x86", "i386", "i686"] : List String))
  ∨ (system = "Darwin" ∧ arch ∈ (["arm64", "x86_64", "amd64"] : List String))
  ∨ (system = "Linux" ∧
    arch ∈ (["amd64", "x86_64", "x86", "i386", "i686", "aarch64"] : List String))

instance (system machine : String) : Decidable (supportedPlatformPair system machine) := by
  unfold supportedPlatformPair; infer_instance

/-- The human name under which the error messages mention each recognized
operating system (`platform.system()` says `Darwin`, the message says
`macOS`); an unrecognized system is echoed verbatim. -/
def osDisplay (system : String) : String :=
  if system = "Windows" then "Windows"
  else if system = "Darwin" then "macOS"
  else if system = "Linux" then "Linux"
  else system

/-! ## `ngrok_util.py` — downloader/installer

The install directory `NGROK_BIN_DIR` is modelled as a finite map from file
name (relative to that directory) to file data.  `download_ngrok` (lines
77–91) on a non-Windows host: `os.makedirs(..., exist_ok=True)` (a no-op on
the map), `urlretrieve` into `ngrok.zip`, `ZipFile.extractall` (write every
archive entry, overwriting), `os.remove` the archive, `os.chmod(binary, 0o755)`.
The archive is a parameter: a list of (entry name, content) pairs. -/

/-- A file of the install directory: its bytes and whether its mode has the
executable bits (`0o755`) set. -/
structure DirFile where
  content : String
  execBit : Bool
deriving DecidableEq

/-- The install directory: which file, if any, each name holds. -/
def DirState : Type := String → Option DirFile

/-- `open(name, "wb")` + write: creating a file leaves the executable bits
clear; overwriting keeps the file's existing mode. -/
def dirWrite (fs : DirState) (name content : String) : DirState := fun k =>
  if k = name then
    some ⟨content, match fs name with | some f => f.execBit | none => false⟩
  else fs k

/-- `os.remove name`. -/
def dirRemove (fs : DirState) (name : String) : DirState := fun k =>
  if k = name then none else fs k

/-- `os.chmod(name, 0o755)`: sets the executable bits; a missing target (an
archive without the binary — `FileNotFoundError` in Python) leaves the map
unchanged, a case the theorems below never rely on. -/
def dirChmodExec (fs : DirState) (name : String) : DirState := fun k =>
  if k = name then (fs name).map fun f => ⟨f.content, true⟩ else fs k

/-- `ZipFile.extractall(NGROK_BIN_DIR)`: write every archive entry in order. -/
def extractAll (fs : DirState) (entries : List (String × String)) : DirState :=
  entries.foldl (fun acc e => dirWrite acc e.1 e.2) fs

/-- `ngrok_util.download_ngrok` (lines 77–91), non-Windows path, as a
transformer of the install directory: the downloaded archive bytes are
`zipContent`, its entries `entries`, and the binary extracted under the name
`ngrok` (`get_local_ngrok_path`, lines 93–98). -/
def download_ngrok (zipContent : String) (entries : List (String × String))
    (fs : DirState) : DirState :=
  let afterFetch := dirWrite fs "ngrok.zip" zipContent
  let afterExtract := extractAll afterFetch entries
  let afterRemove := dirRemove afterExtract "ngrok.zip"
  dirChmodExec afterRemove "ngrok"

/-! ## `ngrok_util.py` — executable locator -/

/-- What `resolve_ngrok_exec` (lines 100–116) produced: the path it returned,
whether it fell through to `download_ngrok`, and every path on which it ran
the `<path> version` liveness probe. -/
structure ResolveOutcome where
  exePath : String
  downloadInvoked : Bool
  versionProbes : List String
deriving DecidableEq

/-- `ngrok_util.resolve_ngrok_exec` (lines 100–116).  `whichNgrok` is
`shutil.which("ngrok")` (`none` when absent); `versionOk p` tells whether
`subprocess.run([p, "version"], check=True)` completes without raising;
`localExists` is `os.path.exists(local_ngrok)`; `localPath` is
`get_local_ngrok_path()` and `downloadPath` what `download_ngrok()` returns. -/
def resolve_ngrok_exec (whichNgrok : Option String) (versionOk : String → Bool)
    (localExists : Bool) (localPath downloadPath : String) : ResolveOutcome :=
  match whichNgrok with
  | some g =>
    if versionOk g then ⟨g, false, [g]⟩
    else if localExists then ⟨localPath, false, [g]⟩
    else ⟨downloadPath, true, [g]⟩
  | none =>
    if localExists then ⟨localPath, false, []⟩
    else ⟨downloadPath, true, []⟩

/-! ## `ngrok_util.py` — process supervisor

`start_ngrok` (lines 118–180) is embedded as the list of side effects it
performs after the executable has been resolved.  The launched process's
behaviour over time is a parameter: `apiUp i` is what `is_ngrok_running()`
returns on the poll of iteration `i` (i = 0, 1, …), `exited i` whether
`process.poll()` reports an exit on iteration `i`, and `graceExit` whether the
process exits within the one-second grace that `process.communicate(timeout=1)`
allows after the loop.  `out`/`err` are the process's captured stdout and
stderr. -/

inductive NgrokEv where
  /-- `taskkill`/`pkill` of any previous ngrok instance (`check=False`). -/
  | killPrevious
  /-- `time.sleep(n)` after the kill. -/
  | sleepSecs (n : Nat)
  /-- `subprocess.run([ngrok_exec, "authtoken", tok], check=True)`. -/
  | runAuthConfig (exe tok : String)
  /-- The two `print`s of the `except` branch of the authtoken step. -/
  | printAuthFailure
  /-- `print(f"🚀 Launching ngrok on port {port}...")`. -/
  | printLaunching (port : Nat)
  /-- `subprocess.Popen(cmd, ...)`. -/
  | spawnTunnel (cmd : List String)
  /-- The `is_ngrok_running()` call of loop iteration `i`. -/
  | pollApi (i : Nat)
  /-- The `time.sleep(1)` (plus waiting print) of loop iteration `i`. -/
  | waitSleep (i : Nat)
  /-- `print` of the captured stdout and stderr. -/
  | printOutputs (out err : String)
  /-- `process.terminate()`. -/
  | terminateProc
  /-- `return process` from loop iteration `i` (ngrok is ready). -/
  | retProcess (i : Nat)
  /-- `raise RuntimeError("Ngrok exited prematurely")`. -/
  | raiseCrash
  /-- `raise RuntimeError("⏰ Timeout while waiting for ngrok to start.")`. -/
  | raiseTimeoutRuntime
  /-- `subprocess.TimeoutExpired` escaping from `process.communicate(timeout=1)`
  (the process was still alive one second after the last poll). -/
  | raiseTimeoutExpired
deriving DecidableEq

/-- The `for i in range(timeout)` readiness loop of `start_ngrok`
(lines 160–180), started at iteration `i` with `fuel` iterations left
(`fuel = 30 - i` while the loop runs; the top call uses 0 and 30). -/
def start_ngrok_poll (apiUp exited : Nat → Bool) (graceExit : Bool)
    (out err : String) : Nat → Nat → List NgrokEv
  | _, 0 =>
    -- after the loop: communicate(timeout=1), prints, terminate(), raise —
    -- but communicate itself raises TimeoutExpired when the process is
    -- still alive, skipping everything after it
    if graceExit then [.printOutputs out err, .terminateProc, .raiseTimeoutRuntime]
    else [.raiseTimeoutExpired]
  | i, fuel + 1 =>
    .pollApi i ::
      if apiUp i then [.retProcess i]
      else if exited i then [.printOutputs out err, .raiseCrash]
      else .waitSleep i :: start_ngrok_poll apiUp exited graceExit out err (i + 1) fuel

/-- `ngrok_util.start_ngrok` (lines 118–180) after `resolve_ngrok_exec` has
produced `exe`: the kill of previous instances, the optional authtoken
configuration (`authOk` tells whether that `subprocess.run` succeeds), the
spawn of `<exe> http <port>`, then the readiness loop with `timeout = 30`. -/
def start_ngrok (exe : String) (port : Nat) (authtoken : Option String)
    (authOk : Bool) (apiUp exited : Nat → Bool) (graceExit : Bool)
    (out err : String) : List NgrokEv :=
  [.killPrevious, .sleepSecs 2] ++
  (if pyTruthy authtoken then
    .runAuthConfig exe (authtoken.getD "") ::
      (if authOk then [] else [.printAuthFailure])
  else []) ++
  [.printLaunching port, .spawnTunnel [exe, "http", toString port]] ++
  start_ngrok_poll apiUp exited graceExit out err 0 30

/-- The poll events among `l`. -/
def isPollEv : NgrokEv → Bool
  | .pollApi _ => true
  | _ => false

/-- The `time.sleep(1)` events among `l`. -/
def isWaitSleepEv : NgrokEv → Bool
  | .waitSleep _ => true
  | _ => false

/-- Successful-return events. -/
def isRetEv : NgrokEv → Bool
  | .retProcess _ => true
  | _ => false

/-- Either way the timeout path can end (the designed `RuntimeError` or the
escaping `TimeoutExpired`). -/
def isTimeoutRaiseEv : NgrokEv → Bool
  | .raiseTimeoutRuntime => true
  | .raiseTimeoutExpired => true
  | _ => false

/-! ## `ngrok_util.py` — endpoint reader -/

/-- The ways the `try` block of `get_ngrok_endpoint` (lines 195–207) can fail.
Every one of them is re-raised as
`RuntimeError(f"Error fetching ngrok endpoint: {e}")` by the `except` clause;
the inner exceptions stay distinguishable (and are what the spec names
`NoActiveTunnelError` versus a connection error). -/
inductive NgrokFetchError where
  /-- `requests.get` raised: the API is unreachable. -/
  | requestRaised (msg : String)
  /-- `raise_for_status` raised `HTTPError`. -/
  | httpStatusError (status : Nat)
  /-- `raise ValueError("No active ngrok tunnels.")`: a response arrived but
  its `"tunnels"` list is empty. -/
  | noActiveTunnels
deriving DecidableEq

/-- The message of the `RuntimeError` that `get_ngrok_endpoint`'s `except`
clause wraps each inner failure into. -/
def ngrokFetchMessage : NgrokFetchError → String
  | .requestRaised m => "Error fetching ngrok endpoint: " ++ m
  | .httpStatusError _ => "Error fetching ngrok endpoint: HTTPError"
  | .noActiveTunnels => "Error fetching ngrok endpoint: No active ngrok tunnels."

/-- `url.replace("https://", "").replace("http://", "")`. -/
def stripScheme (url : String) : String :=
  pyReplace (pyReplace url "https://" "") "http://" ""

/-- The body of `get_ngrok_endpoint` once the tunnel is known to be running
(lines 195–207): fetch the status API, fail on an empty `"tunnels"` list,
otherwise return the first mapping's `public_url` without its scheme.  (When
`is_ngrok_running()` is false the source first runs the full
`start_ngrok` launch sequence — modelled above — and sleeps 5 seconds before
reaching this same block.) -/
def get_ngrok_endpoint_fetch : ApiResult → Except NgrokFetchError String
  | .raisedConn m => .error (.requestRaised m)
  | .resp status tunnels =>
    if 400 ≤ status ∧ status < 600 then .error (.httpStatusError status)
    else
      match tunnels with
      | [] => .error .noActiveTunnels
      | url :: _ => .ok (stripScheme url)

/-! ## `create_env.py` — the multi-selection prompt

`choose_multiple_from_list` (src/infra/scripts/create_env.py lines 56–107;
the src/src variant lines 58–109 is byte-identical).  Console input is a
parameter: the successive lines `input()` would yield. -/

/-- The `for p in parts` validation loop: `seen` and `selected` are the
accumulators of the source; `none` models `all_valid = False` (the prompt
re-asks), `some selected` a pass that kept `all_valid = True`. -/
def choosePass (options : List String) :
    List String → List String → List String → Option (List String)
  | [], _, selected => some selected
  | p :: rest, seen, selected =>
    if p ∈ seen then none
    else
      let seen := p :: seen
      if pyIsDigit p then
        let i := pyToNat p
        if 1 ≤ i ∧ i ≤ options.length then
          let name := options.getD (i - 1) ""
          if name ∈ selected then none
          else choosePass options rest seen (selected ++ [name])
        else none
      else if p ∈ options then
        if p ∈ selected then none
        else choosePass options rest seen (selected ++ [p])
      else none

/-- How a run of `choose_multiple_from_list` ends. -/
inductive ChooseOutcome where
  /-- `sys.exit(1)` on an empty options list. -/
  | exitedEmpty
  /-- `return selected`. -/
  | returned (selected : List String)
  /-- The console input ran out while the prompt was still re-asking (the
  real program would block on `input()`). -/
  | inputExhausted
deriving DecidableEq

/-- The `while True` prompt loop: split the next raw line on commas, strip
each part, drop falsy parts, validate; return on a valid non-empty
selection, otherwise re-ask. -/
def chooseLoop (options : List String) : List String → ChooseOutcome
  | [] => .inputExhausted
  | raw :: rest =>
    let parts := ((pySplitComma (pyStrip raw)).map pyStrip).filter
      fun p => decide (p ≠ "")
    match choosePass options parts [] [] with
    | some selected =>
      if selected.isEmpty then chooseLoop options rest else .returned selected
    | none => chooseLoop options rest

/-- `create_env.choose_multiple_from_list`, fed the console lines `inputs`. -/
def choose_multiple_from_list (options inputs : List String) : ChooseOutcome :=
  if options.isEmpty then .exitedEmpty else chooseLoop options inputs

/-! ## `create_env.py` — `run()`'s configuration validation and confirmation

The validation prefix of `run()` (src/infra/scripts/create_env.py lines
147–164; same shape at src/src/infra/scripts/create_env.py lines 149–167,
with English diagnostics).  `os.getenv` yields `none` for an unset variable.
The source computes `terraform_endpoint.rsplit("/", 1)[0]` *before* checking
`if not terraform_endpoint:` — on an unset variable that attribute access on
`None` raises `AttributeError`, so the interpreter dies on a traceback (exit
code 1) without ever printing the intended diagnostic. -/

inductive RunOutcome where
  /-- Uncaught `AttributeError` from `None.rsplit`: traceback, no diagnostic
  print, interpreter exit code 1. -/
  | uncaughtAttrError
  /-- `print(diag)` followed by `sys.exit(code)`. -/
  | exitCode (code : Nat) (diag : String)
  /-- Validation passed: the developer name, endpoint and its base URL. -/
  | proceed (developer endpoint base : String)
deriving DecidableEq

/-- The environment-validation prefix of `create_env.run`. -/
def run_env_validation (developer terraform_endpoint : Option String) :
    RunOutcome :=
  match terraform_endpoint with
  | none => .uncaughtAttrError
  | some te =>
    let base := pyRsplitSlashHead te
    if ¬ pyTruthy (some te) then .exitCode 1 "❌ TERRAFORM_ENDPOINT no definido"
    else if ¬ pyTruthy developer then .exitCode 1 "❌ DEVELOPER no definido"
    else .proceed (developer.getD "") te base

/-- How the `Do you want continue? (y/n)` loop ends. -/
inductive ConfirmOutcome where
  /-- `break`: continue to build and send the payload. -/
  | proceedSend
  /-- `print("🚫 Operation cancelled by the user.")` then `sys.exit(0)`. -/
  | exitZero
  /-- Console input ran out while the loop was still re-asking. -/
  | exhausted
deriving DecidableEq

/-- The confirmation loop of `create_env.run` (lines 188–196): strip and
lowercase each answer; `y` proceeds, `n` cancels with exit code 0, anything
else re-asks. -/
def confirmLoop : List String → ConfirmOutcome
  | [] => .exhausted
  | a :: rest =>
    let c := pyLower (pyStrip a)
    if c = "y" then .proceedSend
    else if c = "n" then .exitZero
    else confirmLoop rest

/-! ## Claim C1 — the timeout path of `start_ngrok` -/

/-- The event trace of `start_ngrok` on C1's scenario: the status API never
answers, the launched process never exits (also not during the one-second
`communicate` grace). -/
def timeoutTrace : List NgrokEv :=
  start_ngrok "ngrok" 8000 none true (fun _ => false) (fun _ => false) false "out" "err"

/-- C1: when the status API never becomes reachable and the process never
exits, `start_ngrok` does make exactly 30 poll attempts with one
`time.sleep(1)` between consecutive attempts — but it then dies on an
uncaught `subprocess.TimeoutExpired` raised by `process.communicate(timeout=1)`
(line 176), so `process.terminate()` (line 179) is never executed and the
designed timeout `RuntimeError` (line 180) is never raised.  The claim's
"terminates the process, then reports LaunchTimeoutError" is what lines
176–180 plainly intend but the code never reaches. -/
theorem start_ngrok_timeout_path_eval :
    timeoutTrace.countP isPollEv = 30 ∧
    timeoutTrace.countP isWaitSleepEv = 30 ∧
    NgrokEv.terminateProc ∉ timeoutTrace ∧
    timeoutTrace.getLast? = some NgrokEv.raiseTimeoutExpired ∧
    NgrokEv.raiseTimeoutRuntime ∉ timeoutTrace := by decide

/-! ## Claim C10 — totality of `is_ngrok_running` -/

/-- C10 (amended): `is_ngrok_running` is a total Boolean function of the
request's outcome — every exception is caught — and it returns `true` exactly
when the GET completed with a status outside the 400–599 error range (what
`raise_for_status` tolerates), not exactly on 2xx "success" statuses. -/
theorem is_ngrok_running_total_characterization (r : ApiResult) :
    is_ngrok_running r = true ↔ completesWithoutHttpError r := by
  cases r with
  | raisedConn m => simp [is_ngrok_running, completesWithoutHttpError]
  | resp st ts =>
    simp [is_ngrok_running, completesWithoutHttpError]
    omega

/-- C10 counterexample to the claim as stated: a `304 Not Modified` response
completes with a non-success status (outside the 2xx class), yet
`is_ngrok_running` returns `true` for it, because `raise_for_status` only
raises on 4xx/5xx. -/
theorem is_ngrok_running_success_counterexample :
    is_ngrok_running (.resp 304 []) = true ∧ ¬ isSuccessStatus 304 := by decide

/-! ## Claim C5 — the endpoint reader on zero and one mappings -/

/-- C5: with the tunnel already running (the lines 195–207 block), a
well-formed response with zero mappings fails with the no-active-tunnels
error (`raise ValueError("No active ngrok tunnels.")`, the spec's
`NoActiveTunnelError`), which is a different error from the one an
unreachable status API produces; and a response with one mapping
`{"public_url": "https://abcd.example.com"}` returns `"abcd.example.com"`,
scheme stripped, no trailing slash added. -/
theorem get_ngrok_endpoint_mappings (m : String) :
    get_ngrok_endpoint_fetch (.resp 200 []) = .error .noActiveTunnels ∧
    get_ngrok_endpoint_fetch (.raisedConn m) = .error (.requestRaised m) ∧
    NgrokFetchError.noActiveTunnels ≠ NgrokFetchError.requestRaised m ∧
    get_ngrok_endpoint_fetch (.resp 200 ["https://abcd.example.com"]) = .ok "abcd.example.com" := by
  refine ⟨by decide, rfl, by simp, by decide⟩

/-! ## Claim C8 — fatal configuration errors in `create_env.run` -/

/-- C8: with `TERRAFORM_ENDPOINT` unset, `run()` evaluates
`terraform_endpoint.rsplit("/", 1)` (line 154) *before* its `if not
terraform_endpoint` check (line 157), so it dies on an uncaught
`AttributeError` — a traceback, not the intended human-readable diagnostic.
The neighbouring cases behave as the claim says: an *empty* (but set)
`TERRAFORM_ENDPOINT` and a missing `DEVELOPER` print their diagnostics and
exit 1, and answering `n` at the confirmation prompt exits 0. -/
theorem create_env_missing_config_behaviour :
    run_env_validation (some "alice") none = .uncaughtAttrError ∧
    run_env_validation (some "alice") (some "") = .exitCode 1 "❌ TERRAFORM_ENDPOINT no definido" ∧
    run_env_validation none (some "http://x/api") = .exitCode 1 "❌ DEVELOPER no definido" ∧
    confirmLoop ["n"] = .exitZero := by decide

/-! ## Claim C4 — the executable locator's fallback chain -/

/-- C4: `resolve_ngrok_exec` follows system-install → local copy → download,
first success wins.  A responsive system binary is returned with the
downloader never invoked; with the system binary absent or unresponsive, an
existing local copy is returned and the only `version` probe ever run (if
any) was on the system candidate — the local path is never re-validated; only
with both unavailable is the downloader invoked and its result returned. -/
theorem resolve_ngrok_exec_fallback_chain (whichNgrok : Option String)
    (versionOk : String → Bool) (localExists : Bool) (localPath downloadPath : String) :
    (∀ g, whichNgrok = some g → versionOk g = true →
      resolve_ngrok_exec whichNgrok versionOk localExists localPath downloadPath
        = ⟨g, false, [g]⟩) ∧
    (∀ g, whichNgrok = some g → versionOk g = false → localExists = true →
      resolve_ngrok_exec whichNgrok versionOk localExists localPath downloadPath
        = ⟨localPath, false, [g]⟩) ∧
    (whichNgrok = none → localExists = true →
      resolve_ngrok_exec whichNgrok versionOk localExists localPath downloadPath
        = ⟨localPath, false, []⟩) ∧
    (∀ g, whichNgrok = some g → versionOk g = false → localExists = false →
      resolve_ngrok_exec whichNgrok versionOk localExists localPath downloadPath
        = ⟨downloadPath, true, [g]⟩) ∧
    (whichNgrok = none → localExists = false →
      resolve_ngrok_exec whichNgrok versionOk localExists localPath downloadPath
        = ⟨downloadPath, true, []⟩) := by
  refine ⟨?_, ?_, ?_, ?_, ?_⟩ <;> intros <;> subst_vars <;>
    simp_all [resolve_ngrok_exec]

/-! ## Claim C7 — auth-token configuration failure is non-fatal -/

/-- C7: with a (truthy) auth token supplied, a failing
`subprocess.run([ngrok_exec, "authtoken", ...])` only adds the two log
prints of its `except` branch; the launch sequence then continues to the
same `Popen([ngrok_exec, "http", str(port)])` spawn and readiness loop as a
successful configuration would. -/
theorem start_ngrok_authtoken_failure_nonfatal (exe : String) (port : Nat)
    (t : String) (apiUp exited : Nat → Bool) (graceExit : Bool) (out err : String)
    (h : t ≠ "") :
    start_ngrok exe port (some t) false apiUp exited graceExit out err
      = [.killPrevious, .sleepSecs 2, .runAuthConfig exe t, .printAuthFailure,
          .printLaunching port, .spawnTunnel [exe, "http", toString port]]
        ++ start_ngrok_poll apiUp exited graceExit out err 0 30 ∧
    start_ngrok exe port (some t) true apiUp exited graceExit out err
      = [.killPrevious, .sleepSecs 2, .runAuthConfig exe t,
          .printLaunching port, .spawnTunnel [exe, "http", toString port]]
        ++ start_ngrok_poll apiUp exited graceExit out err 0 30 ∧
    NgrokEv.spawnTunnel [exe, "http", toString port]
      ∈ start_ngrok exe port (some t) false apiUp exited graceExit out err := by
  refine ⟨?_, ?_, ?_⟩ <;> simp [start_ngrok, pyTruthy, h]

/-! ## Claim C2 — a crash before readiness beats the timeout -/

/-- Auxiliary to C2: if the status API stays down and the process exits at
some iteration within the remaining fuel, the readiness loop raises the
premature-exit `RuntimeError` with the captured output printed, and raises
neither timeout error nor returns the process. -/
lemma start_ngrok_poll_crash (apiUp exited : Nat → Bool) (graceExit : Bool)
    (out err : String) :
    ∀ fuel i, (∀ j, apiUp j = false) →
      (∃ k, i ≤ k ∧ k < i + fuel ∧ exited k = true) →
      NgrokEv.raiseCrash ∈ start_ngrok_poll apiUp exited graceExit out err i fuel ∧
      NgrokEv.printOutputs out err ∈ start_ngrok_poll apiUp exited graceExit out err i fuel ∧
      (start_ngrok_poll apiUp exited graceExit out err i fuel).countP isTimeoutRaiseEv = 0 ∧
      (start_ngrok_poll apiUp exited graceExit out err i fuel).countP isRetEv = 0 := by
  intro fuel
  induction fuel with
  | zero =>
    rintro i _ ⟨k, hik, hk, _⟩
    omega
  | succ n ih =>
    rintro i hapi ⟨k, hik, hk, hex⟩
    by_cases he : exited i = true
    · simp [start_ngrok_poll, hapi i, he, isTimeoutRaiseEv, isRetEv, List.countP_cons]
    · have hne : exited i = false := by simpa using he
      have hik2 : i ≠ k := fun hh => by rw [hh, hex] at hne; cases hne
      have ih2 := ih (i + 1) hapi ⟨k, by omega, by omega, hex⟩
      simp only [start_ngrok_poll, hapi i, hne, if_false, Bool.false_eq_true,
        List.mem_cons, List.countP_cons] at ih2 ⊢
      refine ⟨Or.inr (Or.inr ih2.1), Or.inr (Or.inr ih2.2.1), ?_, ?_⟩ <;>
        simp [isTimeoutRaiseEv, isRetEv, ih2.2.2.1, ih2.2.2.2]

/-- C2: when the status API never answers successfully and the launched
process exits on its own at some poll iteration before the 30-attempt
ceiling, `start_ngrok` raises the premature-exit error (`raise
RuntimeError("Ngrok exited prematurely")`, the spec's `LaunchCrashError`)
with the process's captured stdout and stderr printed for diagnostics, and
neither timeout error occurs nor is the process ever reported ready. -/
theorem start_ngrok_crash_before_ready (exe : String) (port : Nat)
    (tok : Option String) (authOk : Bool) (apiUp exited : Nat → Bool)
    (graceExit : Bool) (out err : String)
    (hapi : ∀ j, apiUp j = false) (hexit : ∃ k, k < 30 ∧ exited k = true) :
    NgrokEv.raiseCrash ∈ start_ngrok exe port tok authOk apiUp exited graceExit out err ∧
    NgrokEv.printOutputs out err ∈ start_ngrok exe port tok authOk apiUp exited graceExit out err ∧
    (start_ngrok exe port tok authOk apiUp exited graceExit out err).countP isTimeoutRaiseEv = 0 ∧
    (start_ngrok exe port tok authOk apiUp exited graceExit out err).countP isRetEv = 0 := by
  obtain ⟨k, hk, hex⟩ := hexit
  obtain ⟨hc, hp, ht, hr⟩ :=
    start_ngrok_poll_crash apiUp exited graceExit out err 30 0 hapi
      ⟨k, by omega, by omega, hex⟩
  unfold start_ngrok
  by_cases htok : pyTruthy tok <;> by_cases hok : authOk <;>
    simp [htok, hok, List.countP_append, List.countP_cons, List.mem_append,
      isTimeoutRaiseEv, isRetEv, hc, hp, ht, hr]

/-- C2's hypotheses discharged at a concrete input: the API never answers
and the process exits during the third poll iteration (after 3 poll
attempts), as in the spec's example scenario. -/
theorem start_ngrok_crash_before_ready_witness :
    NgrokEv.raiseCrash
      ∈ start_ngrok "ngrok" 8000 none true (fun _ => false) (fun j => decide (2 ≤ j)) false "bo" "be" ∧
    NgrokEv.printOutputs "bo" "be"
      ∈ start_ngrok "ngrok" 8000 none true (fun _ => false) (fun j => decide (2 ≤ j)) false "bo" "be" ∧
    (start_ngrok "ngrok" 8000 none true (fun _ => false) (fun j => decide (2 ≤ j)) false "bo" "be").countP
      isTimeoutRaiseEv = 0 ∧
    (start_ngrok "ngrok" 8000 none true (fun _ => false) (fun j => decide (2 ≤ j)) false "bo" "be").countP
      isRetEv = 0 :=
  start_ngrok_crash_before_ready "ngrok" 8000 none true (fun _ => false)
    (fun j => decide (2 ≤ j)) false "bo" "be" (fun _ => rfl) ⟨2, by decide, by decide⟩

/-- C7's hypothesis discharged at a concrete input: the token `"tok123"`. -/
theorem start_ngrok_authtoken_failure_nonfatal_witness :
    start_ngrok "ngrok" 8000 (some "tok123") false (fun _ => true) (fun _ => false) true "" ""
      = [.killPrevious, .sleepSecs 2, .runAuthConfig "ngrok" "tok123", .printAuthFailure,
          .printLaunching 8000, .spawnTunnel ["ngrok", "http", toString 8000]]
        ++ start_ngrok_poll (fun _ => true) (fun _ => false) true "" "" 0 30 ∧
    start_ngrok "ngrok" 8000 (some "tok123") true (fun _ => true) (fun _ => false) true "" ""
      = [.killPrevious, .sleepSecs 2, .runAuthConfig "ngrok" "tok123",
          .printLaunching 8000, .spawnTunnel ["ngrok", "http", toString 8000]]
        ++ start_ngrok_poll (fun _ => true) (fun _ => false) true "" "" 0 30 ∧
    NgrokEv.spawnTunnel ["ngrok", "http", toString 8000]
      ∈ start_ngrok "ngrok" 8000 (some "tok123") false (fun _ => true) (fun _ => false) true "" "" :=
  start_ngrok_authtoken_failure_nonfatal "ngrok" 8000 "tok123"
    (fun _ => true) (fun _ => false) true "" "" (by decide)

/-! ## Claim C6 — idempotence of the downloader/installer -/

/-- Pointwise description of one `download_ngrok` run whose archive holds
exactly the binary entry `ngrok`: that name now holds the executable binary,
the archive name is gone, and every other name is untouched. -/
lemma download_ngrok_single_apply (z b : String) (fs : DirState) (k : String) :
    download_ngrok z [("ngrok", b)] fs k
      = if k = "ngrok" then some ⟨b, true⟩
        else if k = "ngrok.zip" then none
        else fs k := by
  by_cases h1 : k = "ngrok" <;> by_cases h2 : k = "ngrok.zip" <;>
    simp_all [download_ngrok, extractAll, dirWrite, dirRemove, dirChmodExec]

/-- C6: running `download_ngrok` twice leaves the install directory in
exactly the state of a single successful run (the second run is absorbed);
that state holds the binary `ngrok` with the executable bits set, no
`ngrok.zip` archive, and nothing else the run would have created — so a
retry after a prior (even partial) attempt needs no manual cleanup. -/
theorem download_ngrok_idempotent (z b : String) (fs : DirState) :
    download_ngrok z [("ngrok", b)] (download_ngrok z [("ngrok", b)] fs)
      = download_ngrok z [("ngrok", b)] fs ∧
    download_ngrok z [("ngrok", b)] fs "ngrok" = some ⟨b, true⟩ ∧
    download_ngrok z [("ngrok", b)] fs "ngrok.zip" = none ∧
    (∀ k, k ≠ "ngrok" → k ≠ "ngrok.zip" → download_ngrok z [("ngrok", b)] fs k = fs k) := by
  refine ⟨funext fun k => ?_, ?_, ?_, fun k h1 h2 => ?_⟩ <;>
    simp only [download_ngrok_single_apply] <;> split_ifs <;> simp_all

/-! ## Claim C3 — the platform resolver's supported table -/

/-- A string occurs at the very end of a concatenation. -/
lemma containsStr_right (p x : String) : containsStr x (p ++ x) :=
  ⟨p.data, [], by simp [String.data_append]⟩

/-- A string occurs inside the constant part of a concatenation, read off a
decomposition of that constant. -/
lemma containsStr_decomp (c p x q : String) (hc : c.data = p.data ++ x.data ++ q.data)
    (a : String) : containsStr x (c ++ a) :=
  ⟨p.data, q.data ++ a.data, by rw [String.data_append, hc]; simp [List.append_assoc]⟩

/-- C3 counterexample to the claim as stated: the claimed supported set
{Windows, macOS, Linux} × {amd64, arm64, x86} (with aliases) is wrong on two
pairs — `get_download_url` has no x86 row for Darwin, and its Linux table
matches only the `aarch64` alias, not the `arm64` spelling itself — both
raise the unsupported-architecture error instead of returning a URL. -/
theorem get_download_url_claim_counterexample :
    get_download_url "Darwin" "x86" = .error "Unsupported macOS architecture: x86" ∧
    get_download_url "Linux" "arm64" = .error "Unsupported Linux architecture: arm64" := by
  decide

/-- C3 (amended): for every (os, machine) pair the resolver's table actually
recognizes — `supportedPlatformPair`, i.e. Windows × {amd64, x86_64, arm64,
aarch64, x86, i386, i686}, Darwin × {arm64, x86_64, amd64} and Linux ×
{amd64, x86_64, x86, i386, i686, aarch64}, after lowercasing — resolution
returns a non-empty URL; for every other pair it fails with an error whose
message names the unmatched architecture and operating system. -/
theorem get_download_url_supported_table (system machine : String) :
    (supportedPlatformPair system machine →
      ∃ url, get_download_url system machine = .ok url ∧ url ≠ "") ∧
    (¬ supportedPlatformPair system machine →
      ∃ msg, get_download_url system machine = .error msg ∧
        containsStr (pyLower machine) msg ∧ containsStr (osDisplay system) msg) := by
  constructor
  · intro hs
    rcases hs with ⟨hsys, harch⟩ | ⟨hsys, harch⟩ | ⟨hsys, harch⟩ <;> subst hsys <;>
      simp only [List.mem_cons, List.not_mem_nil, or_false] at harch
    · rcases harch with h | h | h | h | h | h | h <;> simp [get_download_url, h]
    · rcases harch with h | h | h <;> simp [get_download_url, h]
    · rcases harch with h | h | h | h | h | h <;> simp [get_download_url, h]
  · intro hns
    by_cases hW : system = "Windows"
    · subst hW
      have ha : ¬ (pyLower machine
          ∈ (["amd64", "x86_64", "arm64", "aarch64", "x86", "i386", "i686"] : List String)) :=
        fun hmem => hns (Or.inl ⟨rfl, hmem⟩)
      simp only [List.mem_cons, List.not_mem_nil, or_false, not_or] at ha
      obtain ⟨h1, h2, h3, h4, h5, h6, h7⟩ := ha
      have heq : get_download_url "Windows" machine
          = .error ("Unsupported Windows architecture: " ++ pyLower machine) := by
        simp [get_download_url, h1, h2, h3, h4, h5, h6, h7]
      refine ⟨_, heq, containsStr_right _ _, ?_⟩
      have hd : osDisplay "Windows" = "Windows" := by decide
      rw [hd]
      exact containsStr_decomp "Unsupported Windows architecture: " "Unsupported "
        "Windows" " architecture: " (by decide) (pyLower machine)
    · by_cases hD : system = "Darwin"
      · subst hD
        have ha : ¬ (pyLower machine ∈ (["arm64", "x86_64", "amd64"] : List String)) :=
          fun hmem => hns (Or.inr (Or.inl ⟨rfl, hmem⟩))
        simp only [List.mem_cons, List.not_mem_nil, or_false, not_or] at ha
        obtain ⟨h1, h2, h3⟩ := ha
        have heq : get_download_url "Darwin" machine
            = .error ("Unsupported macOS architecture: " ++ pyLower machine) := by
          simp [get_download_url, h1, h2, h3]
        refine ⟨_, heq, containsStr_right _ _, ?_⟩
        have hd : osDisplay "Darwin" = "macOS" := by decide
        rw [hd]
        exact containsStr_decomp "Unsupported macOS architecture: " "Unsupported "
          "macOS" " architecture: " (by decide) (pyLower machine)
      · by_cases hL : system = "Linux"
        · subst hL
          have ha : ¬ (pyLower machine
              ∈ (["amd64", "x86_64", "x86", "i386", "i686", "aarch64"] : List String)) :=
            fun hmem => hns (Or.inr (Or.inr ⟨rfl, hmem⟩))
          simp only [List.mem_cons, List.not_mem_nil, or_false, not_or] at ha
          obtain ⟨h1, h2, h3, h4, h5, h6⟩ := ha
          have heq : get_download_url "Linux" machine
              = .error ("Unsupported Linux architecture: " ++ pyLower machine) := by
            simp [get_download_url, h1, h2, h3, h4, h5, h6]
          refine ⟨_, heq, containsStr_right _ _, ?_⟩
          have hd : osDisplay "Linux" = "Linux" := by decide
          rw [hd]
          exact containsStr_decomp "Unsupported Linux architecture: " "Unsupported "
            "Linux" " architecture: " (by decide) (pyLower machine)
        · have heq : get_download_url system machine
              = .error ("Unsupported operating system: " ++ system ++ " ("
                  ++ pyLower machine ++ ")") := by
            simp [get_download_url, hW, hD, hL]
          refine ⟨_, heq, ?_, ?_⟩
          · exact ⟨"Unsupported operating system: ".data ++ system.data ++ " (".data,
              ")".data, by simp [String.data_append, List.append_assoc]⟩
          · have hd : osDisplay system = system := by simp [osDisplay, hW, hD, hL]
            rw [hd]
            exact ⟨"Unsupported operating system: ".data,
              " (".data ++ (pyLower machine).data ++ ")".data,
              by simp [String.data_append, List.append_assoc]⟩

/-! ## Claim C9 — soundness of the multi-selection prompt -/

/-- Appending a fresh element keeps a list duplicate-free. -/
lemma nodup_append_singleton {l : List String} {a : String}
    (h1 : l.Nodup) (h2 : a ∉ l) : (l ++ [a]).Nodup := by
  rw [List.nodup_append]
  refine ⟨h1, List.nodup_singleton a, ?_⟩
  intro x hx hmem
  rw [List.mem_singleton] at hmem
  subst hmem
  exact h2 hx

/-- Auxiliary to C9: a pass of the `for p in parts` validation loop that
keeps `all_valid` true only ever extends a duplicate-free selection of
options with elements of the options list that are not yet selected. -/
lemma choosePass_sound (options : List String) :
    ∀ parts seen selected sel,
      selected.Nodup → (∀ x ∈ selected, x ∈ options) →
      choosePass options parts seen selected = some sel →
      sel.Nodup ∧ ∀ x ∈ sel, x ∈ options := by
  intro parts
  induction parts with
  | nil =>
    intro seen selected sel hnd hsub h
    simp only [choosePass, Option.some.injEq] at h
    subst h
    exact ⟨hnd, hsub⟩
  | cons p rest ih =>
    intro seen selected sel hnd hsub h
    simp only [choosePass] at h
    by_cases h1 : p ∈ seen
    · simp [h1] at h
    · rw [if_neg h1] at h
      by_cases h2 : pyIsDigit p = true
      · rw [if_pos h2] at h
        by_cases h3 : 1 ≤ pyToNat p ∧ pyToNat p ≤ options.length
        · rw [if_pos h3] at h
          by_cases h4 : options.getD (pyToNat p - 1) "" ∈ selected
          · rw [if_pos h4] at h
            exact absurd h (by simp)
          · rw [if_neg h4] at h
            have hb : pyToNat p - 1 < options.length := by omega
            have hmem : options.getD (pyToNat p - 1) "" ∈ options := by
              rw [List.getD_eq_getElem options "" hb]
              exact List.getElem_mem hb
            refine ih _ _ sel ?_ ?_ h
            · exact nodup_append_singleton hnd h4
            · intro x hx
              rcases List.mem_append.mp hx with hx | hx
              · exact hsub x hx
              · rw [List.mem_singleton] at hx
                subst hx
                exact hmem
        · rw [if_neg h3] at h
          exact absurd h (by simp)
      · rw [if_neg h2] at h
        by_cases h5 : p ∈ options
        · rw [if_pos h5] at h
          by_cases h6 : p ∈ selected
          · rw [if_pos h6] at h
            exact absurd h (by simp)
          · rw [if_neg h6] at h
            refine ih _ _ sel ?_ ?_ h
            · exact nodup_append_singleton hnd h6
            · intro x hx
              rcases List.mem_append.mp hx with hx | hx
              · exact hsub x hx
              · rw [List.mem_singleton] at hx
                subst hx
                exact h5
        · rw [if_neg h5] at h
          exact absurd h (by simp)

/-- Auxiliary to C9: whatever the `while True` prompt loop returns came from
a validation pass that produced a non-empty selection. -/
lemma chooseLoop_sound (options : List String) :
    ∀ inputs sel, chooseLoop options inputs = .returned sel →
      sel ≠ [] ∧ sel.Nodup ∧ ∀ x ∈ sel, x ∈ options := by
  intro inputs
  induction inputs with
  | nil => intro sel h; simp [chooseLoop] at h
  | cons raw rest ih =>
    intro sel h
    simp only [chooseLoop] at h
    cases hp : choosePass options
        (((pySplitComma (pyStrip raw)).map pyStrip).filter fun p => decide (p ≠ "")) [] [] with
    | none => simp only [hp] at h; exact ih sel h
    | some selected =>
      simp only [hp] at h
      by_cases he : selected.isEmpty
      · rw [if_pos he] at h
        exact ih sel h
      · rw [if_neg he] at h
        injection h with h2
        subst h2
        have hs := choosePass_sound options _ _ _ selected List.nodup_nil (by simp) hp
        refine ⟨?_, hs.1, hs.2⟩
        intro hnil
        subst hnil
        simp at he

/-- C9: whenever `choose_multiple_from_list` returns a selection (rather
than exiting on an empty options list or waiting forever for more input),
that selection is a non-empty, duplicate-free list whose every element is a
member of the given options list, whether entries were typed as numbers or
as names. -/
theorem choose_multiple_from_list_sound (options inputs selected : List String)
    (h : choose_multiple_from_list options inputs = .returned selected) :
    selected ≠ [] ∧ selected.Nodup ∧ ∀ x ∈ selected, x ∈ options := by
  unfold choose_multiple_from_list at h
  by_cases he : options.isEmpty
  · rw [if_pos he] at h
    exact absurd h (by simp)
  · rw [if_neg he] at h
    exact chooseLoop_sound options inputs selected h

/-- C9's hypothesis discharged at a concrete input: options
`["api", "web", "db"]` and the single console line `"1, web"`, mixing a
numeric entry and a name. -/
theorem choose_multiple_from_list_sound_witness :
    choose_multiple_from_list ["api", "web", "db"] ["1, web"] = .returned ["api", "web"] ∧
    ((["api", "web"] : List String) ≠ [] ∧ (["api", "web"] : List String).Nodup ∧
      ∀ x ∈ (["api", "web"] : List String), x ∈ (["api", "web", "db"] : List String)) :=
  ⟨by decide,
    choose_multiple_from_list_sound ["api", "web", "db"] ["1, web"] ["api", "web"] (by decide)⟩

end InfraCli
